import Mathlib

/-!
Shallow embedding of the Itihaas application core (src/App.tsx,
src/geminiService.ts, src/wikipediaService.ts, src/types.ts).

The React component state is modelled as an explicit `AppState` record
(one field per `useState` hook of `App`, plus a ghost `alerts` list that
records the arguments of `window.alert` calls, which are the observable
error surface of the handlers).  The asynchronous handlers are modelled
as state-transition functions: the synchronous prefix of a handler (the
state writes before the first `await`) and the continuation after the
awaited gateway calls settle are separated, so that overlapping
invocations can be interleaved.  Gateway responses are modelled as pure
functions of the request (a `Gateways` record), and a trace semantics
(`step` / `run`) drives arbitrary interleavings of user intents and
completions of in-flight `handlePlaceSelect` invocations.
-/

set_option linter.unusedVariables false

namespace Itihaas

/-- Languages supported by the app (src/types.ts line 2). -/
inductive Language
  | en
  | te
  | hi
  deriving DecidableEq, Repr

/-- Poet record (src/types.ts lines 4-11). -/
structure Poet where
  name : String
  period : String
  language : String
  contribution : String
  famousVerse : String
  source : String
  deriving DecidableEq, Repr

/-- Structured heritage report (src/types.ts lines 13-24). -/
structure HeritageContent where
  overview : String
  architecture : String
  monuments : String
  traditions : String
  cuisine : String
  artCrafts : String
  literature : String
  agriculture : String
  lifestyle : String
  poets : List Poet
  deriving DecidableEq, Repr

/-- Wikipedia image record (src/types.ts lines 26-29). -/
structure WikiImage where
  url : String
  caption : String
  deriving DecidableEq, Repr

/-- Selected-place aggregate (src/types.ts lines 31-37; the optional
`coords` field is never written by the app and is omitted). -/
structure PlaceDetails where
  id : String
  name : String
  content : Option HeritageContent
  images : List WikiImage
  deriving DecidableEq, Repr

/-- Chat message role (src/types.ts line 40): the code uses the role
name `model` for the assistant side. -/
inductive ChatRole
  | user
  | model
  deriving DecidableEq, Repr

/-- Chat transcript entry (src/types.ts lines 39-42). -/
structure ChatMessage where
  role : ChatRole
  text : String
  deriving DecidableEq, Repr

/-- The view selector of the App component (src/App.tsx line 53). -/
inductive View
  | home
  | explore
  | reconstruct
  deriving DecidableEq, Repr

/-- The mutable state of the App component: one field per `useState`
hook (src/App.tsx lines 52-68), plus the ghost field `alerts` recording
the arguments of `window.alert` calls in order. -/
structure AppState where
  lang : Language
  view : View
  searchQuery : String
  placesList : List String
  selectedPlace : Option PlaceDetails
  loading : Bool
  isChatOpen : Bool
  chatMessages : List ChatMessage
  chatInput : String
  originalImage : Option String
  reconstructedImage : Option String
  reconLoading : Bool
  alerts : List String
  deriving DecidableEq, Repr

/-- The initial state of the App component (the `useState` initial
values, src/App.tsx lines 52-68). -/
def initApp : AppState :=
  { lang := Language.en
    view := View.home
    searchQuery := ""
    placesList := []
    selectedPlace := none
    loading := false
    isChatOpen := false
    chatMessages := []
    chatInput := ""
    originalImage := none
    reconstructedImage := none
    reconLoading := false
    alerts := [] }

/-- The external gateway calls used by `handlePlaceSelect`, modelled as
pure functions of the request; a throwing call is `Except.error ()`.
`getSummary` and `getPlaceImages` are the WikipediaService calls
(src/wikipediaService.ts), `getStructuredContent` is the GeminiService
report generation (src/geminiService.ts), whose request carries the
place name, the fetched summary and the target language. -/
structure Gateways where
  getSummary : String → Except Unit String
  getPlaceImages : String → Except Unit (List WikiImage)
  getStructuredContent : String → String → Language → Except Unit HeritageContent

/-- The alert message shown when any step of `handlePlaceSelect` throws
(src/App.tsx line 89). -/
def fetchErrorMsg : String := "Error fetching heritage data. Please try again."

/-- The alert message shown when `startReconstruction` throws
(src/App.tsx line 125). -/
def reconErrorMsg : String := "Reconstruction failed. Ensure the image is clear and try again."

/-- The fixed assistant reply appended when the chat gateway call fails
(src/App.tsx line 105); it does not depend on the current language. -/
def chatApology : String := "I\x27m having trouble connecting to history right now. Please try again."

/-- Model of the response handling tail of
`GeminiService.getStructuredContent` (src/geminiService.ts lines 67-72):
the raw response text is passed to `JSON.parse` and the decoded payload
is returned as-is; only a parse failure throws.  `decoded` stands for
the outcome of `JSON.parse` on the response text: `none` when the text
is not valid JSON, `some c` for the decoded payload.  No field-shape or
poets-length validation is performed on a successfully decoded payload
before it is returned. -/
def getStructuredContent (decoded : Option HeritageContent) : Except Unit HeritageContent :=
  match decoded with
  | none => Except.error ()
  | some c => Except.ok c

/-- An in-flight `handlePlaceSelect` invocation: the issue-order index,
the requested place name, and the language captured from the component
closure at the time the handler was invoked (src/App.tsx line 85 uses
the `lang` value of the render that created the handler). -/
structure PendingCall where
  idx : Nat
  name : String
  lang : Language
  deriving DecidableEq, Repr

/-- The synchronous prefix of `handlePlaceSelect` (src/App.tsx lines
80-81): `setLoading(true); setView('explore')` before the first await. -/
def handlePlaceSelectIssue (s : AppState) : AppState :=
  { s with loading := true, view := View.explore }

/-- The sequential awaited body of `handlePlaceSelect` (src/App.tsx
lines 83-85): summary, then images, then the structured report for the
captured language; the first throwing call aborts the sequence (the
`try` block rethrows into the single `catch`). -/
def handlePlaceSelectResult (gw : Gateways) (c : PendingCall) :
    Except Unit (String × List WikiImage × HeritageContent) :=
  match gw.getSummary c.name with
  | Except.error e => Except.error e
  | Except.ok summary =>
    match gw.getPlaceImages c.name with
    | Except.error e => Except.error e
    | Except.ok images =>
      match gw.getStructuredContent c.name summary c.lang with
      | Except.error e => Except.error e
      | Except.ok content => Except.ok (summary, images, content)

/-- Number of report-generator calls issued by one settling
`handlePlaceSelect` invocation: the `GeminiService.getStructuredContent`
call on src/App.tsx line 85 is reached exactly when the two Wikipedia
calls before it did not throw. -/
def handlePlaceSelectGenCalls (gw : Gateways) (c : PendingCall) : Nat :=
  match gw.getSummary c.name with
  | Except.error _ => 0
  | Except.ok _ =>
    match gw.getPlaceImages c.name with
    | Except.error _ => 0
    | Except.ok _ => 1

/-- The effect applied when a `handlePlaceSelect` invocation settles
(src/App.tsx lines 86-92): on success `setSelectedPlace` with the fresh
aggregate; on any throw, `alert(fetchErrorMsg)`; in both cases the
`finally` branch runs `setLoading(false)`.  The response is applied
unconditionally: the code keeps no generation counter and performs no
staleness check before `setSelectedPlace`. -/
def handlePlaceSelectSettle (gw : Gateways) (c : PendingCall) (s : AppState) : AppState :=
  match handlePlaceSelectResult gw c with
  | Except.ok (_, images, content) =>
    { s with
        selectedPlace := some { id := c.name, name := c.name, content := some content, images := images }
        loading := false }
  | Except.error _ =>
    { s with alerts := s.alerts ++ [fetchErrorMsg], loading := false }

/-- The language switch: the `LanguageSelector` is wired as
`onChange={setLang}` (src/App.tsx line 156), so changing the language
only writes the `lang` state field and triggers no fetch. -/
def changeLanguage (l : Language) (s : AppState) : AppState :=
  { s with lang := l }

/-- Whole-system state for the interleaving semantics: the component
state, the list of in-flight `handlePlaceSelect` invocations, the next
issue index, and a ghost count of report-generator calls issued. -/
structure Sys where
  app : AppState
  pending : List PendingCall
  nextIdx : Nat
  genCalls : Nat
  deriving DecidableEq, Repr

/-- The initial whole-system state. -/
def initSys : Sys :=
  { app := initApp, pending := [], nextIdx := 0, genCalls := 0 }

/-- Events of the interleaving semantics: a user invokes
`handlePlaceSelect`, a user switches the language, or the in-flight
invocation with the given issue index settles (its awaited gateway
calls complete, in either outcome). -/
inductive Event
  | selectPlace (name : String)
  | changeLanguage (l : Language)
  | completeSelect (i : Nat)
  deriving DecidableEq, Repr

/-- One step of the interleaving semantics.  Issuing a selection runs
the synchronous prefix and records the in-flight call with the language
captured at issue time; a language change only writes `lang`; a
completion applies `handlePlaceSelectSettle` for the pending call and
removes it, adding its generator calls to the ghost counter.  A
completion index that is not pending is a no-op. -/
def step (gw : Gateways) (sys : Sys) : Event → Sys
  | Event.selectPlace name =>
    { sys with
        app := handlePlaceSelectIssue sys.app
        pending := sys.pending ++ [{ idx := sys.nextIdx, name := name, lang := sys.app.lang }]
        nextIdx := sys.nextIdx + 1 }
  | Event.changeLanguage l =>
    { sys with app := changeLanguage l sys.app }
  | Event.completeSelect i =>
    match sys.pending.find? (fun c => c.idx == i) with
    | none => sys
    | some c =>
      { sys with
          app := handlePlaceSelectSettle gw c sys.app
          pending := sys.pending.filter (fun p => p.idx != i)
          genCalls := sys.genCalls + handlePlaceSelectGenCalls gw c }

/-- Run a trace of events from a starting system state. -/
def run (gw : Gateways) (sys : Sys) (events : List Event) : Sys :=
  events.foldl (step gw) sys

/-- One part of a generator response candidate, as read by
`reconstructMonument` (src/geminiService.ts lines 87-91): only the
optional `inlineData` payload is inspected. -/
structure Part where
  inlineData : Option String
  deriving DecidableEq, Repr

/-- The loop body of `reconstructMonument` (src/geminiService.ts lines
87-91): a part carrying `inlineData` overwrites the accumulator with a
data URL, any other part leaves it unchanged. -/
def reconstructFold (acc : String) (p : Part) : String :=
  match p.inlineData with
  | some d => "data:image/png;base64," ++ d
  | none => acc

/-- The response handling of `GeminiService.reconstructMonument`
(src/geminiService.ts lines 86-92): `imageUrl` starts as the empty
string and each part with `inlineData` overwrites it, so the result is
the data URL of the last inline-image part, or the empty string when
the response contains no inline image part. -/
def reconstructMonument (parts : List Part) : String :=
  parts.foldl reconstructFold ""

/-- The `startReconstruction` handler (src/App.tsx lines 118-129),
modelled over the settled outcome of the gateway call: `gwr` is
`Except.error ()` when `reconstructMonument` throws, otherwise the
parts of the response candidate.  Returns the new state and the number
of gateway calls issued.  The only guard is the missing-image early
return; the handler does not check `reconLoading`.  On success
`setReconstructedImage(res)` stores the (possibly empty) string; on a
throw, `alert(reconErrorMsg)`; in both cases the `finally` branch
clears `reconLoading`. -/
def startReconstruction (gwr : Except Unit (List Part)) (s : AppState) : AppState × Nat :=
  match s.originalImage with
  | none => (s, 0)
  | some _ =>
    match gwr with
    | Except.ok parts =>
      ({ s with reconstructedImage := some (reconstructMonument parts), reconLoading := false }, 1)
    | Except.error _ =>
      ({ s with alerts := s.alerts ++ [reconErrorMsg], reconLoading := false }, 1)

/-- The reconstruct-view start button (src/App.tsx lines 413-422): it
is rendered only when `originalImage` is set and carries
`disabled={reconLoading}`, so a click reaches `startReconstruction`
only when an image is uploaded and no job is loading. -/
def clickReconstruct (gwr : Except Unit (List Part)) (s : AppState) : AppState × Nat :=
  match s.originalImage with
  | none => (s, 0)
  | some _ =>
    if s.reconLoading then (s, 0) else startReconstruction gwr s

/-- Whether the reconstruct view presents a reconstructed result: the
render tests the truthiness of `reconstructedImage` (src/App.tsx line
427), so `null` and the empty string both show the placeholder, not a
result image. -/
def displayedReconstruction (s : AppState) : Bool :=
  match s.reconstructedImage with
  | none => false
  | some str => !str.isEmpty

/-- Model of the JavaScript `String.prototype.trim` call used by the
chat guard (src/App.tsx line 96): strips leading and trailing
whitespace characters. -/
def jsTrim (s : String) : String :=
  ⟨((s.data.dropWhile Char.isWhitespace).reverse.dropWhile Char.isWhitespace).reverse⟩

/-- The `handleChatSend` handler (src/App.tsx lines 95-107), modelled
over the settled outcome `reply` of the gateway call: the trimmed-empty
guard returns without touching the transcript; otherwise the user
message (untrimmed input) is appended and the input cleared, and when
the gateway call settles an assistant (`model`) message is appended
carrying the reply on success or the fixed `chatApology` on failure. -/
def handleChatSend (reply : Except Unit String) (s : AppState) : AppState :=
  if jsTrim s.chatInput = "" then s
  else
    let userMsg : ChatMessage := { role := ChatRole.user, text := s.chatInput }
    match reply with
    | Except.ok r =>
      { s with
          chatMessages := s.chatMessages ++ [userMsg, { role := ChatRole.model, text := r }]
          chatInput := "" }
    | Except.error _ =>
      { s with
          chatMessages := s.chatMessages ++ [userMsg, { role := ChatRole.model, text := chatApology }]
          chatInput := "" }

/-- The display name of the target language used by `GeminiService.chat`
(src/geminiService.ts line 96). -/
def chatTargetLang : Language → String
  | Language.en => "English"
  | Language.te => "Telugu"
  | Language.hi => "Hindi"

/-- The system instruction of the chat session (src/geminiService.ts
lines 101-104), a function of the language only; whitespace of the
template literal is normalised to single spaces. -/
def chatSystemInstruction (lang : Language) : String :=
  "You are ITIHAASA AI, an expert on Andhra Pradesh\x27s cultural heritage. MANDATORY: You must communicate ONLY in "
    ++ chatTargetLang lang
    ++ ". If the user asks in English but the app language is "
    ++ chatTargetLang lang ++ ", answer in " ++ chatTargetLang lang
    ++ ". Be informative, respectful, and academically accurate about the history of Andhra Pradesh."

/-- The request actually placed with the underlying model by
`GeminiService.chat` (src/geminiService.ts lines 98-108): a fresh chat
session configured with the model name and the language-dependent
system instruction, to which only the current message is sent. -/
structure ChatRequest where
  model : String
  systemInstruction : String
  message : String
  deriving DecidableEq, Repr

/-- Construction of the chat request by `GeminiService.chat`
(src/geminiService.ts lines 95-109).  The `history` parameter mirrors
the function's second argument; the function body creates a fresh
session and sends only `message`, so `history` does not occur in the
request. -/
def chatRequest (message : String) (history : List ChatMessage) (lang : Language) : ChatRequest :=
  { model := "gemini-3-flash-preview"
    systemInstruction := chatSystemInstruction lang
    message := message }

/-- The gateway request issued by one `handleChatSend` invocation
(src/App.tsx lines 96 and 102): `none` when the trimmed input is empty
(no call made); otherwise `GeminiService.chat` is invoked with the
current input, the accumulated transcript (the pre-append state
captured by the closure) and the current language. -/
def handleChatSendRequest (s : AppState) : Option ChatRequest :=
  if jsTrim s.chatInput = "" then none
  else some (chatRequest s.chatInput s.chatMessages s.lang)

/-- Simple language code used by the demonstration gateway to embed the
requested language into the generated report. -/
def langCode : Language → String
  | Language.en => "en"
  | Language.te => "te"
  | Language.hi => "hi"

/-- Demonstration report: a `HeritageContent` whose overview records
the requested place and language, so that reports generated for
different requests are distinguishable. -/
def demoContent (name : String) (l : Language) : HeritageContent :=
  { overview := name ++ " (" ++ langCode l ++ ")"
    architecture := ""
    monuments := ""
    traditions := ""
    cuisine := ""
    artCrafts := ""
    literature := ""
    agriculture := ""
    lifestyle := ""
    poets := [] }

/-- Demonstration gateway on which every call succeeds and the
generated report records its request. -/
def demoGW : Gateways :=
  { getSummary := fun _ => Except.ok "summary"
    getPlaceImages := fun _ => Except.ok []
    getStructuredContent := fun name _ l => Except.ok (demoContent name l) }

/-- Demonstration gateway whose summary call throws. -/
def failGW : Gateways :=
  { getSummary := fun _ => Except.error ()
    getPlaceImages := fun _ => Except.ok []
    getStructuredContent := fun name _ l => Except.ok (demoContent name l) }

/-- Trace for the C1 counterexample: two selections are issued
("Amravati" first, then "Lepakshi") and their responses settle in the
opposite order, so the earlier-issued response settles last. -/
def c1Final : Sys :=
  run demoGW initSys
    [Event.selectPlace "Amravati", Event.selectPlace "Lepakshi",
     Event.completeSelect 1, Event.completeSelect 0]

/-- Trace for the C2 counterexample: a selection completes under
language `en`, then the user switches the language to `te`. -/
def c2Final : Sys :=
  run demoGW initSys
    [Event.selectPlace "Lepakshi", Event.completeSelect 0,
     Event.changeLanguage Language.te]

/-- Trace for the C3 counterexample: the same (place, language) pair is
selected twice, each selection completing successfully. -/
def c3Final : Sys :=
  run demoGW initSys
    [Event.selectPlace "Lepakshi", Event.completeSelect 0,
     Event.selectPlace "Lepakshi", Event.completeSelect 1]

/-- A poet value used by the C4 counterexample. -/
def onePoet : Poet :=
  { name := "Vemana"
    period := "17th century"
    language := "Telugu"
    contribution := "Sataka poetry"
    famousVerse := "Viswadabhirama Vinura Vema"
    source := "Vemana Satakam" }

/-- A syntactically well-formed generator payload carrying exactly one
poet, used by the C4 counterexample. -/
def onePoetContent : HeritageContent :=
  { overview := "o"
    architecture := "a"
    monuments := "m"
    traditions := "t"
    cuisine := "c"
    artCrafts := "ac"
    literature := "l"
    agriculture := "ag"
    lifestyle := "ls"
    poets := [onePoet] }

/-- State for the C5 counterexample: an image is uploaded and a
reconstruction job is currently running. -/
def c5App : AppState :=
  { initApp with originalImage := some "data:image/jpeg;base64,abc", reconLoading := true }

/-- State for the C6 witness: an image is uploaded and no job runs. -/
def c6App : AppState :=
  { initApp with originalImage := some "data:image/jpeg;base64,abc" }

/-- State for the C7 witness: a non-blank chat input. -/
def c7App : AppState :=
  { initApp with chatInput := "Tell me about Lepakshi" }

/-- A non-empty transcript used by the C8 counterexample. -/
def c8History : List ChatMessage :=
  [{ role := ChatRole.user, text := "Who built Amaravati?" },
   { role := ChatRole.model, text := "The Satavahanas." }]

/-- System state for the C9 witness: one invocation is in flight. -/
def c9Sys : Sys :=
  { initSys with pending := [{ idx := 0, name := "Lepakshi", lang := Language.en }] }

/-- C1: the claim asserts that every fetch is tagged with a generation
counter and a response is applied only if its tag is current, so the
final visible selection corresponds to the last call issued.  The code
has no counter: in the trace `c1Final`, "Amravati" is issued before
"Lepakshi" but its response settles last, and the final visible
selection is Amravati's — an earlier call than the last one issued —
refuting the claim. -/
theorem C1_counterexample :
    c1Final.app.selectedPlace =
      some { id := "Amravati", name := "Amravati"
             content := some (demoContent "Amravati" Language.en), images := [] } ∧
    demoContent "Amravati" Language.en ≠ demoContent "Lepakshi" Language.en := by
  constructor
  · rfl
  · decide

/-- C1 (amended): `handlePlaceSelect` carries no generation tag and
performs no staleness check: every invocation whose three gateway calls
succeed overwrites the visible selection unconditionally when it
settles, so the final visible selection corresponds to the last
response to settle, which need not be the last call issued. -/
theorem C1_no_supersession_last_completion_wins
    (gw : Gateways) (c : PendingCall) (s : AppState)
    (su : String) (im : List WikiImage) (co : HeritageContent)
    (h1 : gw.getSummary c.name = Except.ok su)
    (h2 : gw.getPlaceImages c.name = Except.ok im)
    (h3 : gw.getStructuredContent c.name su c.lang = Except.ok co) :
    (handlePlaceSelectSettle gw c s).selectedPlace =
      some { id := c.name, name := c.name, content := some co, images := im } := by
  simp only [handlePlaceSelectSettle, handlePlaceSelectResult, h1, h2, h3]

/-- Witness for C1 (amended) at the demonstration gateway. -/
theorem C1_no_supersession_witness :
    demoGW.getSummary "Lepakshi" = Except.ok "summary" ∧
    demoGW.getPlaceImages "Lepakshi" = Except.ok [] ∧
    demoGW.getStructuredContent "Lepakshi" "summary" Language.en =
      Except.ok (demoContent "Lepakshi" Language.en) ∧
    (handlePlaceSelectSettle demoGW
        { idx := 0, name := "Lepakshi", lang := Language.en } initApp).selectedPlace =
      some { id := "Lepakshi", name := "Lepakshi"
             content := some (demoContent "Lepakshi" Language.en), images := [] } :=
  ⟨rfl, rfl, rfl,
    C1_no_supersession_last_completion_wins demoGW
      { idx := 0, name := "Lepakshi", lang := Language.en } initApp
      "summary" [] (demoContent "Lepakshi" Language.en) rfl rfl rfl⟩

/-- C2: the claim asserts the displayed report always corresponds to
the current language and that `changeLanguage` re-requests the report
for the new language.  In the trace `c2Final` a place is selected under
`en` and the language is then switched to `te`: the final state has
current language `te` while the displayed report is still the one
generated for `en` (distinct from the `te` report), and no second
generator call was issued — refuting the claim. -/
theorem C2_counterexample :
    c2Final.app.lang = Language.te ∧
    c2Final.app.selectedPlace =
      some { id := "Lepakshi", name := "Lepakshi"
             content := some (demoContent "Lepakshi" Language.en), images := [] } ∧
    demoContent "Lepakshi" Language.en ≠ demoContent "Lepakshi" Language.te ∧
    c2Final.genCalls = 1 := by
  refine ⟨rfl, rfl, by decide, rfl⟩

/-- C2 (amended): switching the language only writes the `lang` state
field: the selection (summary, images and the already-displayed report)
is left entirely untouched, no report is re-requested, and no in-flight
call is affected; hence the displayed report remains the one generated
for the language current at selection time. -/
theorem C2_changeLanguage_frame (gw : Gateways) (sys : Sys) (l : Language) :
    (step gw sys (Event.changeLanguage l)).app.lang = l ∧
    (step gw sys (Event.changeLanguage l)).app.selectedPlace = sys.app.selectedPlace ∧
    (step gw sys (Event.changeLanguage l)).genCalls = sys.genCalls ∧
    (step gw sys (Event.changeLanguage l)).pending = sys.pending := by
  exact ⟨rfl, rfl, rfl, rfl⟩

/-- C3: the claim asserts that after one successful generation for a
(place, language) pair, a later request for the same pair is served
from a cache with zero additional generator calls.  There is no cache:
in the trace `c3Final` the pair ("Lepakshi", en) is selected twice and
both selections complete, issuing two generator calls in total — the
second request issued one additional call, refuting the claim. -/
theorem C3_counterexample :
    c3Final.genCalls = 2 ∧ c3Final.pending = [] := by
  exact ⟨rfl, rfl⟩

/-- C3 (amended): no content cache exists: every settling
`handlePlaceSelect` invocation whose two Wikipedia calls succeed issues
exactly one generator call, regardless of any earlier generation for
the same pair, while a language change issues none (and fetches
nothing). -/
theorem C3_no_cache
    (gw : Gateways) (c : PendingCall) (su : String) (im : List WikiImage)
    (sys : Sys) (l : Language)
    (h1 : gw.getSummary c.name = Except.ok su)
    (h2 : gw.getPlaceImages c.name = Except.ok im) :
    handlePlaceSelectGenCalls gw c = 1 ∧
    (step gw sys (Event.changeLanguage l)).genCalls = sys.genCalls := by
  constructor
  · unfold handlePlaceSelectGenCalls
    rw [h1, h2]
  · exact rfl

/-- Witness for C3 (amended) at the demonstration gateway. -/
theorem C3_no_cache_witness :
    demoGW.getSummary "Lepakshi" = Except.ok "summary" ∧
    demoGW.getPlaceImages "Lepakshi" = Except.ok [] ∧
    (handlePlaceSelectGenCalls demoGW { idx := 0, name := "Lepakshi", lang := Language.en } = 1 ∧
      (step demoGW initSys (Event.changeLanguage Language.te)).genCalls = initSys.genCalls) :=
  ⟨rfl, rfl,
    C3_no_cache demoGW { idx := 0, name := "Lepakshi", lang := Language.en }
      "summary" [] initSys Language.te rfl rfl⟩

/-- C4: the claim asserts that every accepted `HeritageContent`
satisfies `poets.length >= 2` and that a response with one poet is
rejected as a generation error.  `getStructuredContent` performs no
validation after `JSON.parse`: the one-poet payload `onePoetContent`
is accepted and returned as-is, refuting the claim. -/
theorem C4_counterexample :
    getStructuredContent (some onePoetContent) = Except.ok onePoetContent ∧
    onePoetContent.poets.length = 1 := by
  exact ⟨rfl, rfl⟩

/-- C4 (amended): the response handling of `getStructuredContent`
performs no poets-length or field validation: every successfully
JSON-parsed payload is accepted and returned unchanged (whatever its
poets count), and only a JSON parse failure is raised as an error. -/
theorem C4_accepts_any_parsed_payload :
    (∀ c : HeritageContent, getStructuredContent (some c) = Except.ok c) ∧
    getStructuredContent none = Except.error () := by
  exact ⟨fun _ => rfl, rfl⟩

/-- C5: the claim asserts that starting a reconstruction while one is
running fails with `JobAlreadyRunning` and issues no gateway call.  In
state `c5App` a job is running (`reconLoading = true`) and an image is
uploaded: invoking `startReconstruction` issues one gateway call and
surfaces no error of any kind (the alert list is unchanged; no
`JobAlreadyRunning` error exists in the code), refuting the claim. -/
theorem C5_counterexample :
    (startReconstruction (Except.ok [{ inlineData := some "xyz" }]) c5App).2 = 1 ∧
    (startReconstruction (Except.ok [{ inlineData := some "xyz" }]) c5App).1.alerts =
      c5App.alerts := by
  exact ⟨rfl, rfl⟩

/-- C5 (amended): the code defines no `JobAlreadyRunning` error and
`startReconstruction` performs no running-job check: whenever an image
is uploaded it issues exactly one gateway call, even while a job is
running; re-entry is prevented only in the presentation layer, where
the start button is disabled while `reconLoading` is true, so a UI
click during a running job invokes nothing. -/
theorem C5_no_job_exclusivity_check
    (gwr : Except Unit (List Part)) (s : AppState) (img : String)
    (himg : s.originalImage = some img) (hrun : s.reconLoading = true) :
    (startReconstruction gwr s).2 = 1 ∧ clickReconstruct gwr s = (s, 0) := by
  constructor
  · simp only [startReconstruction, himg]
    cases gwr <;> rfl
  · simp [clickReconstruct, himg, hrun]

/-- Witness for C5 (amended) at the concrete running-job state. -/
theorem C5_no_job_exclusivity_witness :
    c5App.originalImage = some "data:image/jpeg;base64,abc" ∧
    c5App.reconLoading = true ∧
    ((startReconstruction (Except.ok []) c5App).2 = 1 ∧
      clickReconstruct (Except.ok []) c5App = (c5App, 0)) :=
  ⟨rfl, rfl,
    C5_no_job_exclusivity_check (Except.ok []) c5App "data:image/jpeg;base64,abc" rfl rfl⟩

/-- Helper for C6: folding the part loop over parts none of which carry
inline data leaves the accumulator unchanged. -/
theorem foldl_reconstructFold_of_no_inline :
    ∀ (parts : List Part) (acc : String),
      (∀ p ∈ parts, p.inlineData = none) → parts.foldl reconstructFold acc = acc := by
  intro parts
  induction parts with
  | nil => intro acc h; rfl
  | cons p ps ih =>
    intro acc h
    have hp : p.inlineData = none := h p (List.mem_cons_self p ps)
    have hps : ∀ q ∈ ps, q.inlineData = none := fun q hq => h q (List.mem_cons_of_mem p hq)
    simp only [List.foldl_cons]
    rw [show reconstructFold acc p = acc by unfold reconstructFold; rw [hp]]
    exact ih acc hps

/-- C6: a reconstruction call that settles without throwing but whose
response contains no inline-image part stores the empty string (the
explicit part-scan found nothing), which the presentation layer never
shows as a successful result, and raises no error alert — the absent
image is a valid non-success outcome, never presented as a result. -/
theorem C6_absent_image_not_presented
    (s : AppState) (img : String) (parts : List Part)
    (himg : s.originalImage = some img)
    (hparts : ∀ p ∈ parts, p.inlineData = none) :
    (startReconstruction (Except.ok parts) s).1.reconstructedImage = some "" ∧
    displayedReconstruction (startReconstruction (Except.ok parts) s).1 = false ∧
    (startReconstruction (Except.ok parts) s).1.alerts = s.alerts ∧
    (startReconstruction (Except.ok parts) s).1.reconLoading = false := by
  have hempty : reconstructMonument parts = "" :=
    foldl_reconstructFold_of_no_inline parts "" hparts
  simp only [startReconstruction, himg, hempty, displayedReconstruction]
  refine ⟨?_, ?_, ?_, ?_⟩ <;> first | rfl | trivial

/-- Witness for C6 at a concrete state and a one-part response with no
inline image. -/
theorem C6_absent_image_witness :
    c6App.originalImage = some "data:image/jpeg;base64,abc" ∧
    (∀ p ∈ ([{ inlineData := none }] : List Part), p.inlineData = none) ∧
    ((startReconstruction (Except.ok [{ inlineData := none }]) c6App).1.reconstructedImage = some "" ∧
      displayedReconstruction (startReconstruction (Except.ok [{ inlineData := none }]) c6App).1 = false ∧
      (startReconstruction (Except.ok [{ inlineData := none }]) c6App).1.alerts = c6App.alerts ∧
      (startReconstruction (Except.ok [{ inlineData := none }]) c6App).1.reconLoading = false) :=
  ⟨rfl, by decide,
    C6_absent_image_not_presented c6App "data:image/jpeg;base64,abc"
      [{ inlineData := none }] rfl (by decide)⟩

/-- C7: for every `handleChatSend` whose input is non-blank after
trimming, the settled transcript is the old transcript extended by
exactly two messages — the user turn first, then a `model` turn
carrying the gateway reply on success or the fixed apology on failure —
so no settled transcript has a user turn without a following reply. -/
theorem C7_chat_turn_pairing
    (s : AppState) (reply : Except Unit String)
    (h : ¬ jsTrim s.chatInput = "") :
    (handleChatSend reply s).chatMessages =
      s.chatMessages ++
        [{ role := ChatRole.user, text := s.chatInput },
         { role := ChatRole.model
           text := match reply with | Except.ok r => r | Except.error _ => chatApology }] ∧
    (handleChatSend reply s).chatMessages.length = s.chatMessages.length + 2 := by
  unfold handleChatSend
  rw [if_neg h]
  cases reply with
  | ok r => exact ⟨rfl, by simp⟩
  | error e => exact ⟨rfl, by simp⟩

/-- Witness for C7 at a concrete state, exercising the failure branch:
the apology turn is appended and the length grows by two. -/
theorem C7_chat_turn_pairing_witness :
    (¬ jsTrim c7App.chatInput = "") ∧
    ((handleChatSend (Except.error ()) c7App).chatMessages =
      c7App.chatMessages ++
        [{ role := ChatRole.user, text := c7App.chatInput },
         { role := ChatRole.model, text := chatApology }] ∧
    (handleChatSend (Except.error ()) c7App).chatMessages.length =
      c7App.chatMessages.length + 2) :=
  ⟨by decide, C7_chat_turn_pairing c7App (Except.error ()) (by decide)⟩

/-- C8: the claim asserts that the transcript passed to the
conversational gateway call is actually supplied to the underlying
model session.  It is discarded: `GeminiService.chat` creates a fresh
session and sends only the current message, so the request built for a
non-empty transcript is identical to the one built for an empty
transcript, refuting the claim. -/
theorem C8_counterexample :
    chatRequest "Tell me more" c8History Language.en =
      chatRequest "Tell me more" [] Language.en ∧
    c8History ≠ [] := by
  exact ⟨rfl, by decide⟩

/-- C8 (amended): `handleChatSend` does pass the accumulated transcript
and the current language to `GeminiService.chat`, and the language is
honored (it determines the session's system instruction), but the
transcript parameter is ignored: the request placed with the model is
independent of the transcript, so each reply is conditioned only on the
current message and language. -/
theorem C8_history_discarded
    (s : AppState) (msgs : List ChatMessage) (message : String)
    (h1 h2 : List ChatMessage) (lang : Language) :
    chatRequest message h1 lang = chatRequest message h2 lang ∧
    (chatRequest message h1 lang).systemInstruction = chatSystemInstruction lang ∧
    handleChatSendRequest { s with chatMessages := msgs } = handleChatSendRequest s := by
  exact ⟨rfl, rfl, rfl⟩

/-- C9: if any step of a settling `handlePlaceSelect` invocation throws
(summary, images or report), the previous selection is left completely
untouched (no partial merge), the failure is surfaced as the error
alert rather than propagating, the loading flag is cleared, and no new
request is issued (no automatic retry: the invocation is removed from
the in-flight set and the issue counter is unchanged). -/
theorem C9_failure_leaves_selection
    (gw : Gateways) (sys : Sys) (i : Nat) (c : PendingCall)
    (hfind : sys.pending.find? (fun p => p.idx == i) = some c)
    (herr : handlePlaceSelectResult gw c = Except.error ()) :
    (step gw sys (Event.completeSelect i)).app.selectedPlace = sys.app.selectedPlace ∧
    (step gw sys (Event.completeSelect i)).app.alerts = sys.app.alerts ++ [fetchErrorMsg] ∧
    (step gw sys (Event.completeSelect i)).app.loading = false ∧
    (step gw sys (Event.completeSelect i)).nextIdx = sys.nextIdx ∧
    (step gw sys (Event.completeSelect i)).pending =
      sys.pending.filter (fun p => p.idx != i) := by
  simp only [step, hfind, handlePlaceSelectSettle, herr]
  refine ⟨?_, ?_, ?_, ?_, ?_⟩ <;> first | rfl | trivial

/-- Witness for C9 at the failing gateway and a concrete in-flight
invocation. -/
theorem C9_failure_witness :
    c9Sys.pending.find? (fun p => p.idx == 0) =
      some { idx := 0, name := "Lepakshi", lang := Language.en } ∧
    handlePlaceSelectResult failGW { idx := 0, name := "Lepakshi", lang := Language.en } =
      Except.error () ∧
    ((step failGW c9Sys (Event.completeSelect 0)).app.selectedPlace = c9Sys.app.selectedPlace ∧
      (step failGW c9Sys (Event.completeSelect 0)).app.alerts =
        c9Sys.app.alerts ++ [fetchErrorMsg] ∧
      (step failGW c9Sys (Event.completeSelect 0)).app.loading = false ∧
      (step failGW c9Sys (Event.completeSelect 0)).nextIdx = c9Sys.nextIdx ∧
      (step failGW c9Sys (Event.completeSelect 0)).pending =
        c9Sys.pending.filter (fun p => p.idx != 0)) :=
  ⟨rfl, rfl,
    C9_failure_leaves_selection failGW c9Sys 0
      { idx := 0, name := "Lepakshi", lang := Language.en } rfl rfl⟩

/-- C10: every `handlePlaceSelect` invocation that settles clears the
loading flag, whether its gateway calls succeeded or threw: both the
success branch and the catch branch run the `finally` reset. -/
theorem C10_loading_cleared (gw : Gateways) (c : PendingCall) (s : AppState) :
    (handlePlaceSelectSettle gw c s).loading = false := by
  unfold handlePlaceSelectSettle
  cases hres : handlePlaceSelectResult gw c with
  | ok v =>
    obtain ⟨su, im, co⟩ := v
    rfl
  | error e => rfl

end Itihaas
